import Mathlib

/-!
Verification of `qiskit/dagcircuit/dagnode.py` (class `DAGNode`).

The Python class stores a payload dictionary `data_dict` together with an
integer `_node_id`.  The dictionary uses the fixed key set
`type`, `op`, `name`, `qargs`, `cargs`, `condition`, `wire`; we model it as a
record of `Option` fields so that presence/absence of a key is tracked
exactly (`none` models an absent key).  Python object identity (`id(self)`),
on which `__hash__`, `__str__` and default `==` are based, is modelled by an
explicit `objId` field: distinct instances have distinct `objId`.
-/

namespace DagNode

/-- Qubit references; Python `Qubit` has structural equality. -/
abbrev Qubit := Nat

/-- Classical-bit references; Python `Clbit` has structural equality. -/
abbrev Clbit := Nat

/-- A `Bit` is either a qubit or a classical bit (Python superclass `Bit`). -/
inductive Bit where
  | qubit (q : Qubit)
  | clbit (c : Clbit)
deriving DecidableEq, Repr

/-- Opaque model of `qiskit.circuit.Instruction`; Python `Instruction.__eq__`
is structural (name, arities, parameters). -/
structure Instruction where
  name : String
  numQubits : Nat
  numClbits : Nat
  params : List Int
deriving DecidableEq, Repr

/-- Classical registers, referenced opaquely in conditions. -/
abbrev ClassicalRegister := String

/-- The payload dictionary `data_dict`.  A field with value `none` models a
key that is absent from the Python dict; `some v` models key present with
value `v`.  Dict equality is field-by-field, matching Python `dict.__eq__`
over this key set. -/
structure DataDict where
  type : Option String := none
  op : Option Instruction := none
  name : Option String := none
  qargs : Option (List Qubit) := none
  cargs : Option (List Clbit) := none
  condition : Option (ClassicalRegister × Int) := none
  wire : Option Bit := none
deriving DecidableEq, Repr

/-- `DAGNode.__init__(self, data_dict, nid=-1)`: stores `nid` in `_node_id`
and the dict in `data_dict`.  `objId` models the Python instance identity
`id(self)`; distinct instances carry distinct `objId`. -/
structure DAGNode where
  objId : Nat
  node_id : Int := -1
  data_dict : DataDict
deriving Repr

/-- Errors a method can raise: `QiskitError(msg)` or a dict `KeyError`. -/
inductive PyError where
  | qiskitError (msg : String)
  | keyError (key : String)
deriving DecidableEq, Repr

/-- Whether an error is a `QiskitError`. -/
def PyError.isQiskitError : PyError → Bool
  | .qiskitError _ => true
  | .keyError _ => false

/-- `__str__`: `str(id(self))`. -/
def DAGNode.str (n : DAGNode) : String := toString n.objId

/-- `type` property: `self.data_dict.get('type')`. -/
def DAGNode.type (n : DAGNode) : Option String := n.data_dict.type

/-- `op` property: raises `QiskitError` when `'type' not in self.data_dict or
self.data_dict['type'] != 'op'` (both cases collapse to
`type ≠ some "op"`), else returns `self.data_dict.get('op')`. -/
def DAGNode.op (n : DAGNode) : Except PyError (Option Instruction) :=
  if n.data_dict.type ≠ some "op" then
    .error (.qiskitError ("The node " ++ n.str ++ " is not an op node"))
  else
    .ok n.data_dict.op

/-- `name` property: `self.data_dict.get('name')`. -/
def DAGNode.name (n : DAGNode) : Option String := n.data_dict.name

/-- `name` setter: `self.data_dict['name'] = new_name`. -/
def DAGNode.setName (n : DAGNode) (newName : String) : DAGNode :=
  { n with data_dict := { n.data_dict with name := some newName } }

/-- `qargs` property: `self.data_dict.get('qargs', [])`. -/
def DAGNode.qargs (n : DAGNode) : List Qubit := n.data_dict.qargs.getD []

/-- `qargs` setter: `self.data_dict['qargs'] = new_qargs`. -/
def DAGNode.setQargs (n : DAGNode) (newQargs : List Qubit) : DAGNode :=
  { n with data_dict := { n.data_dict with qargs := some newQargs } }

/-- `cargs` property: `self.data_dict.get('cargs', [])`. -/
def DAGNode.cargs (n : DAGNode) : List Clbit := n.data_dict.cargs.getD []

/-- `condition` property: `self.data_dict.get('condition')`. -/
def DAGNode.condition (n : DAGNode) : Option (ClassicalRegister × Int) :=
  n.data_dict.condition

/-- `wire` property: evaluates `self.data_dict['type']` (a `KeyError` when
the key is absent), raises `QiskitError` when that value is not `'in'` or
`'out'`, else returns `self.data_dict.get('wire')`. -/
def DAGNode.wire (n : DAGNode) : Except PyError (Option Bit) :=
  match n.data_dict.type with
  | none => .error (.keyError "type")
  | some t =>
    if t ≠ "in" ∧ t ≠ "out" then
      .error (.qiskitError ("The node " ++ n.str ++ " is not an input/output node"))
    else
      .ok n.data_dict.wire

/-- `__lt__`: `self._node_id < other._node_id`. -/
def DAGNode.lt (n other : DAGNode) : Bool := n.node_id < other.node_id

/-- `__gt__`: `self._node_id > other._node_id`. -/
def DAGNode.gt (n other : DAGNode) : Bool := n.node_id > other.node_id

/-- `__hash__`: `hash(id(self))`; Python `hash` is the identity on machine
ints of this size. -/
def DAGNode.hash (n : DAGNode) : Nat := n.objId

/-- Default Python `==` on instances without `__eq__`: object identity. -/
def DAGNode.pyEq (a b : DAGNode) : Bool := a.objId == b.objId

/-- Python `set(l1) == set(l2)`: same underlying element set. -/
def listSetEq (l1 l2 : List Qubit) : Bool :=
  l1.all (fun x => l2.contains x) && l2.all (fun x => l1.contains x)

/-- `DAGNode.semantic_eq(node1, node2)`: the chained comparison
`'barrier' == node1.name == node2.name` selects the barrier branch, which
compares `set(node1.qargs) == set(node2.qargs)`; otherwise the whole
payload dicts are compared, `node1.data_dict == node2.data_dict`. -/
def DAGNode.semantic_eq (node1 node2 : DAGNode) : Bool :=
  if node1.name = some "barrier" ∧ node2.name = some "barrier" then
    listSetEq node1.qargs node2.qargs
  else
    node1.data_dict == node2.data_dict

/-- A heap of node instances, indexed by object identity: the in-place
mutation performed by a property setter updates the state of exactly the
instance it is called on. -/
def Store := Nat → DAGNode

/-- Effect of `node.name = new_name` on the heap: the instance with object
identity `i` is updated in place, every other instance is untouched. -/
def storeSetName (s : Store) (i : Nat) (newName : String) : Store :=
  fun j => if j = i then (s i).setName newName else s j

/-- Effect of `node.qargs = new_qargs` on the heap. -/
def storeSetQargs (s : Store) (i : Nat) (newQargs : List Qubit) : Store :=
  fun j => if j = i then (s i).setQargs newQargs else s j

/-- Example instruction payload for an `x` gate. -/
def xInstr : Instruction := { name := "x", numQubits := 1, numClbits := 0, params := [] }

/-- Barrier node over qubits `[0, 1]`. -/
def bnodeA : DAGNode :=
  { objId := 1, node_id := 10,
    data_dict := { type := some "op", name := some "barrier", qargs := some [0, 1] } }

/-- Barrier node over qubits `[1, 0]`: same operand set, different order. -/
def bnodeB : DAGNode :=
  { objId := 2, node_id := 11,
    data_dict := { type := some "op", name := some "barrier", qargs := some [1, 0] } }

/-- Barrier node over qubits `[0, 0]`: duplicated operand. -/
def bnodeDup : DAGNode :=
  { objId := 3, node_id := 12,
    data_dict := { type := some "op", name := some "barrier", qargs := some [0, 0] } }

/-- Barrier node over the single qubit `[0]`. -/
def bnodeSingle : DAGNode :=
  { objId := 4, node_id := 13,
    data_dict := { type := some "op", name := some "barrier", qargs := some [0] } }

/-- Payload of an `x` operation node on qubits `[0, 1]`. -/
def xDict : DataDict :=
  { type := some "op", op := some xInstr, name := some "x",
    qargs := some [0, 1], cargs := some [] }

/-- An `x` operation node. -/
def xnode1 : DAGNode := { objId := 5, node_id := 20, data_dict := xDict }

/-- A distinct instance with payload identical to `xnode1`. -/
def xnode2 : DAGNode := { objId := 6, node_id := 21, data_dict := xDict }

/-- Like `xnode1` but with the quantum operands reordered. -/
def xnode3 : DAGNode :=
  { objId := 7, node_id := 22, data_dict := { xDict with qargs := some [1, 0] } }

/-- A node constructed with an empty payload dict: its kind is unset. -/
def noTypeNode : DAGNode := { objId := 8, node_id := 30, data_dict := {} }

/-- An operation node carrying an instruction. -/
def opNode : DAGNode :=
  { objId := 9, node_id := 31,
    data_dict := { type := some "op", op := some xInstr, name := some "x",
                   qargs := some [0] } }

/-- An input-terminal node for qubit wire `0`. -/
def inNode : DAGNode :=
  { objId := 10, node_id := 32,
    data_dict := { type := some "in", name := some "q[0]",
                   wire := some (Bit.qubit 0) } }

/-- Like `xnode1` but with the `qargs` key absent from the dict. -/
def xnodeNoQargs : DAGNode :=
  { objId := 11, node_id := 33, data_dict := { xDict with qargs := none } }

/-- Like `xnode1` but with the `qargs` key present and bound to `[]`. -/
def xnodeEmptyQargs : DAGNode :=
  { objId := 12, node_id := 34, data_dict := { xDict with qargs := some [] } }

/-- A concrete heap holding `xnode1` at its object identity and
`noTypeNode` everywhere else. -/
def exampleStore : Store :=
  fun j => if j = 5 then xnode1 else noTypeNode

/- ———————————————————————— Helper lemmas ———————————————————————— -/

/-- `set(l1) == set(l2)` in Python holds exactly when the two lists have the
same members. -/
theorem listSetEq_iff (l1 l2 : List Qubit) :
    listSetEq l1 l2 = true ↔ (∀ q : Qubit, q ∈ l1 ↔ q ∈ l2) := by
  simp only [listSetEq, Bool.and_eq_true, List.all_eq_true, List.contains,
    List.elem_iff]
  constructor
  · rintro ⟨h1, h2⟩ q
    exact ⟨fun hq => h1 q hq, fun hq => h2 q hq⟩
  · intro h
    exact ⟨fun q hq => (h q).mp hq, fun q hq => (h q).mpr hq⟩

/-- On two barrier-named nodes, `semantic_eq` is the set comparison of the
quantum operands. -/
theorem semantic_eq_of_barrier (a b : DAGNode)
    (ha : a.name = some "barrier") (hb : b.name = some "barrier") :
    DAGNode.semantic_eq a b = listSetEq a.qargs b.qargs := by
  unfold DAGNode.semantic_eq
  rw [if_pos ⟨ha, hb⟩]

/-- When not both nodes are barrier-named, `semantic_eq` is the comparison
of the whole payload dicts. -/
theorem semantic_eq_of_not_barrier (a b : DAGNode)
    (h : ¬(a.name = some "barrier" ∧ b.name = some "barrier")) :
    DAGNode.semantic_eq a b = (a.data_dict == b.data_dict) := by
  unfold DAGNode.semantic_eq
  rw [if_neg h]

/-- Dict equality is equality of all seven fields. -/
theorem dataDict_eq_iff (d1 d2 : DataDict) :
    d1 = d2 ↔
      (d1.type = d2.type ∧ d1.op = d2.op ∧ d1.name = d2.name ∧
       d1.qargs = d2.qargs ∧ d1.cargs = d2.cargs ∧
       d1.condition = d2.condition ∧ d1.wire = d2.wire) := by
  obtain ⟨t1, o1, n1, q1, c1, cd1, w1⟩ := d1
  obtain ⟨t2, o2, n2, q2, c2, cd2, w2⟩ := d2
  simp [DataDict.mk.injEq, and_assoc]

/- ———————————————————————— Claim theorems ———————————————————————— -/

/-- C1: for every pair of nodes whose `name` both equal `"barrier"`,
`semantic_eq` returns true iff the set of the first node's quantum operands
equals the set of the second's; operand order and every other payload field
(kind, operation, classical operands, condition, wire) are ignored. -/
theorem C1_semantic_eq_barrier_set (a b : DAGNode)
    (ha : a.name = some "barrier") (hb : b.name = some "barrier") :
    DAGNode.semantic_eq a b = true ↔ (∀ q : Qubit, q ∈ a.qargs ↔ q ∈ b.qargs) := by
  rw [semantic_eq_of_barrier a b ha hb, listSetEq_iff]

/-- C1 witness: barrier nodes with qargs `[0, 1]` and `[1, 0]` are
`semantic_eq`. -/
theorem C1_witness : DAGNode.semantic_eq bnodeA bnodeB = true :=
  (C1_semantic_eq_barrier_set bnodeA bnodeB rfl rfl).mpr (by
    intro q
    simp [bnodeA, bnodeB, DAGNode.qargs, or_comm])

/-- C2: when not both nodes are named `"barrier"`, `semantic_eq` returns
true iff the entire payload dicts compare equal field-by-field (kind,
operation by value equality, operand sequences in order, condition, wire,
display name). -/
theorem C2_semantic_eq_general (a b : DAGNode)
    (h : ¬(a.name = some "barrier" ∧ b.name = some "barrier")) :
    DAGNode.semantic_eq a b = true ↔
      (a.data_dict.type = b.data_dict.type ∧ a.data_dict.op = b.data_dict.op ∧
       a.data_dict.name = b.data_dict.name ∧ a.data_dict.qargs = b.data_dict.qargs ∧
       a.data_dict.cargs = b.data_dict.cargs ∧
       a.data_dict.condition = b.data_dict.condition ∧
       a.data_dict.wire = b.data_dict.wire) := by
  rw [semantic_eq_of_not_barrier a b h]
  rw [show ((a.data_dict == b.data_dict) = true) ↔ a.data_dict = b.data_dict from beq_iff_eq]
  exact dataDict_eq_iff _ _

/-- C2 witness: two `"x"`-named nodes with identical payload are
`semantic_eq`; reordering the quantum operands makes them not
`semantic_eq`. -/
theorem C2_witness :
    DAGNode.semantic_eq xnode1 xnode2 = true ∧
    DAGNode.semantic_eq xnode1 xnode3 = false := by
  constructor
  · exact (C2_semantic_eq_general xnode1 xnode2
      (by simp [xnode1, xnode2, DAGNode.name, xDict])).mpr
      ⟨rfl, rfl, rfl, rfl, rfl, rfl, rfl⟩
  · have h := C2_semantic_eq_general xnode1 xnode3
      (by simp [xnode1, xnode3, DAGNode.name, xDict])
    rw [Bool.eq_false_iff]
    intro hc
    have hq := (h.mp hc).2.2.2.1
    simp [xnode1, xnode3, xDict] at hq

/-- C3: `semantic_eq` is symmetric. -/
theorem C3_semantic_eq_symm (a b : DAGNode) :
    DAGNode.semantic_eq a b = DAGNode.semantic_eq b a := by
  unfold DAGNode.semantic_eq
  by_cases h : a.name = some "barrier" ∧ b.name = some "barrier"
  · rw [if_pos h, if_pos ⟨h.2, h.1⟩]
    unfold listSetEq
    exact Bool.and_comm _ _
  · rw [if_neg h, if_neg (fun h' => h ⟨h'.2, h'.1⟩)]
    by_cases hd : a.data_dict = b.data_dict
    · rw [hd]
    · rw [beq_eq_false_iff_ne.mpr hd, beq_eq_false_iff_ne.mpr (Ne.symm hd)]

/-- C4 counterexample: on a node whose kind is unset (`'type'` key absent),
`wire` fails with a dict `KeyError`, which is not a `QiskitError`, refuting
the claim that every unsupported access fails with the single error kind
`InvalidNodeAccess` (`QiskitError`). -/
theorem C4_counterexample :
    noTypeNode.wire = Except.error (PyError.keyError "type") ∧
    (PyError.keyError "type").isQiskitError = false :=
  ⟨rfl, rfl⟩

/-- C4 amended: `op` on a node whose kind is not `operation` (including an
unset kind) fails with `QiskitError`, and returns the stored value
otherwise; `wire` on a node whose kind is set but is neither terminal kind
fails with `QiskitError`, returns the stored value on a terminal kind, but
on an unset kind fails with a dict `KeyError` rather than `QiskitError`. -/
theorem C4_accessor_errors (n : DAGNode) :
    (n.data_dict.type ≠ some "op" →
      n.op = Except.error
        (PyError.qiskitError ("The node " ++ n.str ++ " is not an op node"))) ∧
    (n.data_dict.type = some "op" → n.op = Except.ok n.data_dict.op) ∧
    (n.data_dict.type = none → n.wire = Except.error (PyError.keyError "type")) ∧
    (∀ t, n.data_dict.type = some t → t ≠ "in" → t ≠ "out" →
      n.wire = Except.error
        (PyError.qiskitError ("The node " ++ n.str ++ " is not an input/output node"))) ∧
    (∀ t, n.data_dict.type = some t → (t = "in" ∨ t = "out") →
      n.wire = Except.ok n.data_dict.wire) := by
  refine ⟨?_, ?_, ?_, ?_, ?_⟩
  · intro h
    unfold DAGNode.op
    rw [if_pos h]
  · intro h
    unfold DAGNode.op
    rw [if_neg (by rw [h]; intro hc; exact hc rfl)]
  · intro h
    unfold DAGNode.wire
    rw [h]
  · intro t ht h1 h2
    unfold DAGNode.wire
    rw [ht]
    simp only [if_pos (And.intro h1 h2)]
  · intro t ht h12
    unfold DAGNode.wire
    rw [ht]
    have : ¬(t ≠ "in" ∧ t ≠ "out") := by
      rcases h12 with h | h
      · exact fun hc => hc.1 h
      · exact fun hc => hc.2 h
    simp only [if_neg this]

/-- C4 witness: `op` succeeds on an operation node, `wire` succeeds on an
input-terminal node, and `op` on the input-terminal node fails with
`QiskitError`. -/
theorem C4_witness :
    opNode.op = Except.ok (some xInstr) ∧
    inNode.wire = Except.ok (some (Bit.qubit 0)) ∧
    inNode.op = Except.error
      (PyError.qiskitError ("The node " ++ inNode.str ++ " is not an op node")) :=
  ⟨(C4_accessor_errors opNode).2.1 rfl,
   (C4_accessor_errors inNode).2.2.2.2 "in" rfl (Or.inl rfl),
   (C4_accessor_errors inNode).1 (by simp [inNode])⟩

/-- C5: `qargs` and `cargs` are total: they return the stored list when the
key is present and the empty list when it is absent, never an error. -/
theorem C5_qargs_cargs_total (n : DAGNode) :
    (n.data_dict.qargs = none → n.qargs = []) ∧
    (∀ l, n.data_dict.qargs = some l → n.qargs = l) ∧
    (n.data_dict.cargs = none → n.cargs = []) ∧
    (∀ l, n.data_dict.cargs = some l → n.cargs = l) := by
  refine ⟨?_, ?_, ?_, ?_⟩
  · intro h; unfold DAGNode.qargs; rw [h]; rfl
  · intro l h; unfold DAGNode.qargs; rw [h]; rfl
  · intro h; unfold DAGNode.cargs; rw [h]; rfl
  · intro l h; unfold DAGNode.cargs; rw [h]; rfl

/-- C5 witness: a node with neither key returns `[]` from both accessors,
and a node with stored qargs returns them. -/
theorem C5_witness :
    noTypeNode.qargs = [] ∧ noTypeNode.cargs = [] ∧ bnodeA.qargs = [0, 1] :=
  ⟨(C5_qargs_cargs_total noTypeNode).1 rfl,
   (C5_qargs_cargs_total noTypeNode).2.2.1 rfl,
   (C5_qargs_cargs_total bnodeA).2.1 [0, 1] rfl⟩

/-- C6: `<` holds exactly when the first node's construction-assigned
identity is smaller, `>` exactly when it is larger, and this ordering is
irreflexive, transitive and total up to equality of identities: a strict
total order consistent with the stored identities. -/
theorem C6_lt_gt_order (a b c : DAGNode) :
    (a.lt b = true ↔ a.node_id < b.node_id) ∧
    (a.gt b = true ↔ b.node_id < a.node_id) ∧
    a.lt a = false ∧
    (a.lt b = true → b.lt c = true → a.lt c = true) ∧
    (a.lt b = true ∨ b.lt a = true ∨ a.node_id = b.node_id) := by
  refine ⟨?_, ?_, ?_, ?_, ?_⟩
  · unfold DAGNode.lt
    exact decide_eq_true_iff
  · unfold DAGNode.gt
    exact decide_eq_true_iff
  · simp [DAGNode.lt]
  · intro h1 h2
    have h1' : a.node_id < b.node_id := of_decide_eq_true h1
    have h2' : b.node_id < c.node_id := of_decide_eq_true h2
    exact decide_eq_true (lt_trans h1' h2')
  · rcases lt_trichotomy a.node_id b.node_id with h | h | h
    · exact Or.inl (decide_eq_true h)
    · exact Or.inr (Or.inr h)
    · exact Or.inr (Or.inl (decide_eq_true h))

/-- C6 witness: concrete nodes with identities 10 < 20: ordering operators
agree, and transitivity chains to identity 31. -/
theorem C6_witness :
    bnodeA.lt xnode1 = true ∧ xnode1.gt bnodeA = true ∧ bnodeA.lt opNode = true :=
  ⟨(C6_lt_gt_order bnodeA xnode1 opNode).1.mpr (by decide),
   (C6_lt_gt_order xnode1 bnodeA opNode).2.1.mpr (by decide),
   (C6_lt_gt_order bnodeA xnode1 opNode).2.2.2.1 (by decide) (by decide)⟩

/-- C7: two distinct instances with identical payloads and different
identities are not equal and not hash-equal (instance-identity semantics),
yet `semantic_eq` of the two returns true. -/
theorem C7_identity_vs_semantic (a b : DAGNode)
    (hobj : a.objId ≠ b.objId) (_hid : a.node_id ≠ b.node_id)
    (hpay : a.data_dict = b.data_dict) :
    DAGNode.pyEq a b = false ∧ a.hash ≠ b.hash ∧
    DAGNode.semantic_eq a b = true := by
  refine ⟨?_, ?_, ?_⟩
  · unfold DAGNode.pyEq
    exact beq_eq_false_iff_ne.mpr hobj
  · exact hobj
  · unfold DAGNode.semantic_eq
    by_cases h : a.name = some "barrier" ∧ b.name = some "barrier"
    · rw [if_pos h]
      have hq : a.qargs = b.qargs := by
        unfold DAGNode.qargs
        rw [hpay]
      rw [hq]
      exact (listSetEq_iff _ _).mpr (fun q => Iff.rfl)
    · rw [if_neg h, hpay]
      exact beq_self_eq_true _

/-- C7 witness: `xnode1` and `xnode2` share their payload but differ in
object identity and node identity. -/
theorem C7_witness :
    DAGNode.pyEq xnode1 xnode2 = false ∧ xnode1.hash ≠ xnode2.hash ∧
    DAGNode.semantic_eq xnode1 xnode2 = true :=
  C7_identity_vs_semantic xnode1 xnode2 (by decide) (by decide) rfl

/-- C8: after a `name` or `qargs` setter call on the instance at heap
position `i`, every accessor on that instance observes the new value, all
other payload fields and the identity are unchanged, and every other
instance `j ≠ i` is untouched. -/
theorem C8_setter_frame (s : Store) (i j : Nat) (nm : String) (qs : List Qubit)
    (hij : j ≠ i) :
    ((storeSetName s i nm) i).name = some nm ∧
    ((storeSetName s i nm) i).type = (s i).type ∧
    ((storeSetName s i nm) i).qargs = (s i).qargs ∧
    ((storeSetName s i nm) i).cargs = (s i).cargs ∧
    ((storeSetName s i nm) i).condition = (s i).condition ∧
    ((storeSetName s i nm) i).data_dict.op = (s i).data_dict.op ∧
    ((storeSetName s i nm) i).data_dict.wire = (s i).data_dict.wire ∧
    ((storeSetName s i nm) i).node_id = (s i).node_id ∧
    (storeSetName s i nm) j = s j ∧
    ((storeSetQargs s i qs) i).qargs = qs ∧
    ((storeSetQargs s i qs) i).name = (s i).name ∧
    ((storeSetQargs s i qs) i).type = (s i).type ∧
    ((storeSetQargs s i qs) i).cargs = (s i).cargs ∧
    ((storeSetQargs s i qs) i).condition = (s i).condition ∧
    ((storeSetQargs s i qs) i).data_dict.op = (s i).data_dict.op ∧
    ((storeSetQargs s i qs) i).data_dict.wire = (s i).data_dict.wire ∧
    ((storeSetQargs s i qs) i).node_id = (s i).node_id ∧
    (storeSetQargs s i qs) j = s j := by
  unfold storeSetName storeSetQargs DAGNode.setName DAGNode.setQargs
  simp [hij, DAGNode.name, DAGNode.type, DAGNode.qargs, DAGNode.cargs,
    DAGNode.condition]

/-- C8 witness: on a concrete heap, renaming the node at position 5 is
seen by its own accessors, leaves position 0 untouched, and rewriting the
quantum operands is seen likewise. -/
theorem C8_witness :
    ((storeSetName exampleStore 5 "y") 5).name = some "y" ∧
    (storeSetName exampleStore 5 "y") 0 = exampleStore 0 ∧
    ((storeSetQargs exampleStore 5 [3]) 5).qargs = [3] ∧
    (storeSetQargs exampleStore 5 [3]) 0 = exampleStore 0 :=
  ⟨(C8_setter_frame exampleStore 5 0 "y" [3] (by decide)).1,
   (C8_setter_frame exampleStore 5 0 "y" [3] (by decide)).2.2.2.2.2.2.2.2.1,
   (C8_setter_frame exampleStore 5 0 "y" [3] (by decide)).2.2.2.2.2.2.2.2.2.1,
   (C8_setter_frame exampleStore 5 0 "y" [3] (by decide)).2.2.2.2.2.2.2.2.2.2.2.2.2.2.2.2.2⟩

/-- C9: the barrier special case compares operands as sets, so it ignores
multiplicity and list length: barrier-named nodes with quantum operand
lists `[q, q]` and `[q]` are `semantic_eq`. -/
theorem C9_barrier_multiplicity (a b : DAGNode) (q : Qubit)
    (ha : a.name = some "barrier") (hb : b.name = some "barrier")
    (haq : a.qargs = [q, q]) (hbq : b.qargs = [q]) :
    DAGNode.semantic_eq a b = true := by
  rw [semantic_eq_of_barrier a b ha hb, haq, hbq]
  exact (listSetEq_iff _ _).mpr (fun x => by simp)

/-- C9 witness: barrier nodes over `[0, 0]` and `[0]` are `semantic_eq`. -/
theorem C9_witness : DAGNode.semantic_eq bnodeDup bnodeSingle = true :=
  C9_barrier_multiplicity bnodeDup bnodeSingle 0 rfl rfl rfl rfl

/-- C10: a node whose dict lacks the `qargs` key and a node whose dict
binds it to `[]` agree on every total accessor view (both report the empty
operand list), yet non-barrier `semantic_eq` compares the raw dicts, key
presence included, and returns false. -/
theorem C10_raw_dict_vs_view (a b : DAGNode)
    (hnb : ¬(a.name = some "barrier" ∧ b.name = some "barrier"))
    (haq : a.data_dict.qargs = none) (hbq : b.data_dict.qargs = some [])
    (ht : a.data_dict.type = b.data_dict.type)
    (_ho : a.data_dict.op = b.data_dict.op)
    (hn : a.data_dict.name = b.data_dict.name)
    (hc : a.data_dict.cargs = b.data_dict.cargs)
    (hcond : a.data_dict.condition = b.data_dict.condition)
    (_hw : a.data_dict.wire = b.data_dict.wire) :
    a.type = b.type ∧ a.name = b.name ∧ a.qargs = b.qargs ∧
    a.cargs = b.cargs ∧ a.condition = b.condition ∧
    DAGNode.semantic_eq a b = false := by
  refine ⟨ht, hn, ?_, ?_, hcond, ?_⟩
  · unfold DAGNode.qargs
    rw [haq, hbq]
    rfl
  · unfold DAGNode.cargs
    rw [hc]
  · rw [semantic_eq_of_not_barrier a b hnb, beq_eq_false_iff_ne]
    intro hd
    rw [hd] at haq
    rw [haq] at hbq
    exact Option.noConfusion hbq

/-- C10 witness: the concrete pair with absent versus explicitly empty
`qargs` key agree on the accessor but are not `semantic_eq`. -/
theorem C10_witness :
    xnodeNoQargs.qargs = xnodeEmptyQargs.qargs ∧
    DAGNode.semantic_eq xnodeNoQargs xnodeEmptyQargs = false :=
  ⟨(C10_raw_dict_vs_view xnodeNoQargs xnodeEmptyQargs
      (by simp [xnodeNoQargs, xnodeEmptyQargs, DAGNode.name, xDict])
      rfl rfl rfl rfl rfl rfl rfl rfl).2.2.1,
   (C10_raw_dict_vs_view xnodeNoQargs xnodeEmptyQargs
      (by simp [xnodeNoQargs, xnodeEmptyQargs, DAGNode.name, xDict])
      rfl rfl rfl rfl rfl rfl rfl rfl).2.2.2.2.2⟩

end DagNode
